import Mathlib

/-!
# Verification of the `layout21tetris` cell core (`src/layout21tetris/src/cell.rs`)

A shallow embedding of the multi-view `Cell` container, the `Layout` mutation
surface (`assign`, `cut`, `net`/`NetHandle`), and `Instance` bounding-box
computation, together with theorems settling the specification's claims.

Collaborator types that live in other modules of the repository
(geometry, placement, track system, view payloads, shared pointers) are
modelled from the specification's description of their exposed surface;
each such definition is marked `Modelled from the spec:`.
-/

/-- Modelled from the spec: the pitch-based length unit (`PrimPitches`),
a signed count of primitive pitches. -/
abbrev PrimPitches := Int

/-- Modelled from the spec: a typed 2D coordinate (`coords::Xy`). -/
structure Xy (T : Type) where
  x : T
  y : T
deriving Repr, DecidableEq

/-- Constructor mirroring `Xy::new`. -/
def Xy.new {T : Type} (x y : T) : Xy T := ⟨x, y⟩

/-- Modelled from the spec: an outline shape (`outline::Outline`); only its
maximum-extent accessors along each axis (`xmax()`, `ymax()`) are exposed
to this core. -/
structure Outline where
  xmax : PrimPitches
  ymax : PrimPitches
deriving Repr, DecidableEq

/-- Modelled from the spec: a bounding box (`bbox::BoundBox`) constructed
from two corner coordinates. -/
structure BoundBox (T : Type) where
  p0 : Xy T
  p1 : Xy T
deriving Repr, DecidableEq

/-- Constructor mirroring `BoundBox::new`. -/
def BoundBox.new {T : Type} (p0 p1 : Xy T) : BoundBox T := ⟨p0, p1⟩

/-- Modelled from the spec: the two axis directions (`raw::Dir`). -/
inductive Dir where
  | Horiz
  | Vert
deriving Repr, DecidableEq

/-- Modelled from the spec: the relative-Z tag (`stack::RelZ`), an
enumeration distinguishing "before" vs "after" placement along a track. -/
inductive RelZ where
  | Before
  | After
deriving Repr, DecidableEq

/-- Modelled from the spec: a track-grid coordinate
(`tracks::TrackIntersection`): metal layer, track index, position along the
track, and the relative-Z tag. The source field `at` is a Lean keyword and
is embedded as `at_`. -/
structure TrackIntersection where
  layer : Nat
  track : Nat
  at_ : Nat
  relz : RelZ
deriving Repr, DecidableEq

/-- Modelled from the spec: a net-to-track assignment (`stack::Assign`),
a net name paired with a `TrackIntersection`. The source field `at` is
embedded as `at_`. -/
structure Assign where
  net : String
  at_ : TrackIntersection
deriving Repr, DecidableEq

/-- Modelled from the spec: the failure type (`raw::LayoutError`).
`Validation` is the single locally raised kind; the others model failures
propagated from collaborators: an unresolved relative placement and an
unavailable/poisoned shared reference. -/
inductive LayoutError where
  | Validation
  | Unresolved
  | LockPoisoned
deriving Repr, DecidableEq

/-- The result alias `raw::LayoutResult`. -/
abbrev LayoutResult (T : Type) := Except LayoutError T

/-- Modelled from the spec: a shared, lock-guarded pointer (`utils::Ptr`,
an `Arc<RwLock<T>>`). The `poisoned` flag records whether acquiring the
lock fails. -/
structure Ptr (T : Type) where
  value : T
  poisoned : Bool

/-- Modelled from the spec: acquiring shared read access (`Ptr::read`),
surfaced through `?` as a `LayoutResult`; fails iff the lock is poisoned. -/
def Ptr.read {T : Type} (p : Ptr T) : LayoutResult T :=
  if p.poisoned then Except.error LayoutError.LockPoisoned else Except.ok p.value

/-- Modelled from the spec: `Ptr::read` followed by Rust's `.unwrap()`,
which aborts the process on lock failure; the abort is embedded as `none`. -/
def Ptr.readUnwrap {T : Type} (p : Ptr T) : Option T :=
  if p.poisoned then none else some p.value

/-- Modelled from the spec: `utils::PtrList`, a list of shared pointers. -/
abbrev PtrList (T : Type) := List (Ptr T)

/-- Modelled from the spec: an unresolved relative placement specification
(`placement::RelativePlace`); its payload is out of scope here. -/
inductive RelativePlace where
  | mk
deriving Repr, DecidableEq

/-- Modelled from the spec: a placement value (`placement::Place`), either
an absolute coordinate or a relative specification. -/
inductive Place (T : Type) where
  | Abs (xy : T)
  | Rel (r : RelativePlace)
deriving Repr, DecidableEq

/-- Modelled from the spec: `Place::abs`, the resolve-to-absolute
operation; fails if the placement is relative (its anchor chain is
unresolved within this core). -/
def Place.abs {T : Type} : Place T → LayoutResult T
  | Place.Abs xy => Except.ok xy
  | Place.Rel _ => Except.error LayoutError.Unresolved

/-- Modelled from the spec: a generic placeable object
(`placement::Placeable`); its payload is out of scope here. -/
inductive Placeable where
  | mk
deriving Repr, DecidableEq

/-- Modelled from the spec: an interface-view payload
(`interface::Bundle`); only its name is consulted by this core. -/
structure Bundle where
  name : String
deriving Repr, DecidableEq

/-- Modelled from the spec: an abstract-view payload (`abs::Abstract`),
exposing a name, an outline, and a metal-layer count. -/
structure Abstract where
  name : String
  outline : Outline
  metals : Nat
deriving Repr, DecidableEq

/-- Modelled from the spec: an externally authored raw library
(`raw::Library`); its contents are out of scope here. -/
structure RawLibrary where
  name : String
deriving Repr, DecidableEq

/-- Modelled from the spec: an externally authored raw cell (`raw::Cell`);
only its name is consulted by this core. -/
structure RawCell where
  name : String
deriving Repr, DecidableEq

/-- The `RawLayoutPtr` struct: a pointer to a raw (lib, cell) combination, wrapped
with outline and metal-count information. -/
structure RawLayoutPtr where
  outline : Outline
  metals : Nat
  lib : Ptr RawLibrary
  cell : Ptr RawCell

mutual
/-- A `Cell` is a named design unit with up to four optional views
(`interface`, `abs`, `layout`, `raw`). -/
inductive Cell where
  | mk (name : String) (interface : Option Bundle) (abs : Option Abstract)
       (layout : Option Layout) (raw : Option RawLayoutPtr)
/-- A `Layout` is a cell's concrete implementation — name, metal count,
outline, and the four ordered lists (instances, assignments, cuts,
places). -/
inductive Layout where
  | mk (name : String) (metals : Nat) (outline : Outline)
       (instances : List (Ptr Instance)) (assignments : List Assign)
       (cuts : List TrackIntersection) (places : List Placeable)
/-- An `Instance` is a placed, optionally reflected reference to another
`Cell`. -/
inductive Instance where
  | mk (inst_name : String) (cell : Ptr Cell) (loc : Place (Xy PrimPitches))
       (reflect_horiz : Bool) (reflect_vert : Bool)
end

/-- Projection: `Cell.name`. -/
def Cell.name : Cell → String
  | Cell.mk n _ _ _ _ => n

/-- Projection: `Cell.interface`. -/
def Cell.interface : Cell → Option Bundle
  | Cell.mk _ i _ _ _ => i

/-- Projection: `Cell.abs`. -/
def Cell.abs : Cell → Option Abstract
  | Cell.mk _ _ a _ _ => a

/-- Projection: `Cell.layout`. -/
def Cell.layout : Cell → Option Layout
  | Cell.mk _ _ _ l _ => l

/-- Projection: `Cell.raw`. -/
def Cell.raw : Cell → Option RawLayoutPtr
  | Cell.mk _ _ _ _ r => r

/-- Projection: `Layout.name`. -/
def Layout.name : Layout → String
  | Layout.mk n _ _ _ _ _ _ => n

/-- Projection: `Layout.metals`. -/
def Layout.metals : Layout → Nat
  | Layout.mk _ m _ _ _ _ _ => m

/-- Projection: `Layout.outline`. -/
def Layout.outline : Layout → Outline
  | Layout.mk _ _ o _ _ _ _ => o

/-- Projection: `Layout.instances`. -/
def Layout.instances : Layout → List (Ptr Instance)
  | Layout.mk _ _ _ i _ _ _ => i

/-- Projection: `Layout.assignments`. -/
def Layout.assignments : Layout → List Assign
  | Layout.mk _ _ _ _ a _ _ => a

/-- Projection: `Layout.cuts`. -/
def Layout.cuts : Layout → List TrackIntersection
  | Layout.mk _ _ _ _ _ c _ => c

/-- Projection: `Layout.places`. -/
def Layout.places : Layout → List Placeable
  | Layout.mk _ _ _ _ _ _ p => p

/-- Projection: `Instance.inst_name`. -/
def Instance.inst_name : Instance → String
  | Instance.mk n _ _ _ _ => n

/-- Projection: `Instance.cell`. -/
def Instance.cell : Instance → Ptr Cell
  | Instance.mk _ c _ _ _ => c

/-- Projection: `Instance.loc`. -/
def Instance.loc : Instance → Place (Xy PrimPitches)
  | Instance.mk _ _ l _ _ => l

/-- Projection: `Instance.reflect_horiz`. -/
def Instance.reflect_horiz : Instance → Bool
  | Instance.mk _ _ _ h _ => h

/-- Projection: `Instance.reflect_vert`. -/
def Instance.reflect_vert : Instance → Bool
  | Instance.mk _ _ _ _ v => v

/-- The `CellView` tagged union of the ways a `Cell` is represented. -/
inductive CellView where
  | Interface (b : Bundle)
  | Abstract (a : Abstract)
  | Layout (l : Layout)
  | RawLayoutPtr (r : RawLayoutPtr)

/-- Embeds `Layout::new`: a layout with the given name, metals and outline, and
the four lists defaulted to empty. -/
def Layout.new (name : String) (metals : Nat) (outline : Outline) : Layout :=
  Layout.mk name metals outline [] [] [] []

/-- Embeds `Layout::assign`: push one `Assign` record, pairing `net` with a
`TrackIntersection` built from the remaining arguments, onto the
`assignments` list. -/
def Layout.assign (l : Layout) (net : String) (layer track a : Nat)
    (relz : RelZ) : Layout :=
  match l with
  | Layout.mk n m o insts assigns cuts places =>
      Layout.mk n m o insts
        (assigns ++ [{ net := net, at_ := { layer := layer, track := track, at_ := a, relz := relz } }])
        cuts places

/-- Embeds `Layout::cut`: push one `TrackIntersection` record onto the `cuts`
list. -/
def Layout.cut (l : Layout) (layer track a : Nat) (relz : RelZ) : Layout :=
  match l with
  | Layout.mk n m o insts assigns cuts places =>
      Layout.mk n m o insts assigns
        (cuts ++ [{ layer := layer, track := track, at_ := a, relz := relz }])
        places

/-- A `NetHandle` is a short-term handle for chaining multiple assignments to
a net; holds its bound net name and (in this functional embedding) the
borrowed parent `Layout`'s current state. -/
structure NetHandle where
  name : String
  parent : Layout

/-- Embeds `Layout::net`: get a temporary handle for net assignments. -/
def Layout.net (l : Layout) (net : String) : NetHandle :=
  { name := net, parent := l }

/-- Embeds `NetHandle::at`: assign the handle's net at the given coordinates by
forwarding to `Layout::assign`, returning the handle for chaining. The
source method `at` is a Lean keyword and is embedded as `at_`. -/
def NetHandle.at_ (h : NetHandle) (layer track a : Nat) (relz : RelZ) : NetHandle :=
  { name := h.name, parent := h.parent.assign h.name layer track a relz }

/-- Embeds `Cell::new`: a new and initially empty cell (all views absent). -/
def Cell.new (name : String) : Cell :=
  Cell.mk name none none none none

/-- Embeds `Cell::default` (the derived `Default`): empty name, all views absent. -/
def Cell.default : Cell :=
  Cell.mk "" none none none none

/-- Embeds `Cell::add_view`: store `view` into the field matching its kind,
replacing any prior value of that kind (`Option::replace`). -/
def Cell.add_view (c : Cell) (view : CellView) : Cell :=
  match c, view with
  | Cell.mk n _ a l r, CellView.Interface x => Cell.mk n (some x) a l r
  | Cell.mk n i _ l r, CellView.Abstract x => Cell.mk n i (some x) l r
  | Cell.mk n i a _ r, CellView.Layout x => Cell.mk n i a (some x) r
  | Cell.mk n i a l _, CellView.RawLayoutPtr x => Cell.mk n i a l (some x)

/-- Embeds `Cell::from_views`: start from the default cell, set the name, then
apply `add_view` to each element of `views` in order. -/
def Cell.from_views (name : String) (views : List CellView) : Cell :=
  views.foldl Cell.add_view (Cell.mk name none none none none)

/-- Embeds `Cell::outline`: the outline of the highest-priority present view in
the fixed order `abs`, `layout`, `raw`; `Validation` error if none is
present. -/
def Cell.outline (c : Cell) : LayoutResult Outline :=
  match c.abs with
  | some x => Except.ok x.outline
  | none =>
    match c.layout with
    | some x => Except.ok x.outline
    | none =>
      match c.raw with
      | some x => Except.ok x.outline
      | none => Except.error LayoutError.Validation

/-- Embeds `Cell::boundbox_size`: `(outline.xmax(), outline.ymax())` from the
resolved outline, propagating its failure. -/
def Cell.boundbox_size (c : Cell) : LayoutResult (Xy PrimPitches) := do
  let outline ← c.outline
  return Xy.new outline.xmax outline.ymax

/-- Embeds `Cell::metals`: the metal count of the highest-priority present view
in the fixed order `abs`, `layout`, `raw`; `Validation` error if none is
present. -/
def Cell.metals (c : Cell) : LayoutResult Nat :=
  match c.abs with
  | some x => Except.ok x.metals
  | none =>
    match c.layout with
    | some x => Except.ok x.metals
    | none =>
      match c.raw with
      | some x => Except.ok x.metals
      | none => Except.error LayoutError.Validation

/-- Embeds `Cell::top_metal`: `None` if `metals() == 0`, else
`Some(metals() - 1)`; propagates any failure from `metals()`. -/
def Cell.top_metal (c : Cell) : LayoutResult (Option Nat) := do
  let metals ← c.metals
  if metals == 0 then
    return none
  else
    return some (metals - 1)

/-- Embeds `impl From<interface::Bundle> for Cell`: a cell named after the bundle
whose only view is the interface. -/
def Cell.fromBundle (src : Bundle) : Cell :=
  Cell.mk src.name (some src) none none none

/-- Embeds `impl From<abs::Abstract> for Cell`: a cell named after the abstract
whose only view is the abstract. -/
def Cell.fromAbstract (src : Abstract) : Cell :=
  Cell.mk src.name none (some src) none none

/-- Embeds `impl From<Layout> for Cell`: a cell named after the layout whose only
view is the layout. -/
def Cell.fromLayout (src : Layout) : Cell :=
  Cell.mk src.name none none (some src) none

/-- Embeds `impl From<RawLayoutPtr> for Cell`: reads the raw cell's name through
`src.cell.read().unwrap()` — which aborts (embedded as `none`) if the
shared lock is poisoned — then builds a cell whose only view is `raw`. -/
def Cell.fromRawLayoutPtr (src : RawLayoutPtr) : Option Cell :=
  (src.cell.readUnwrap).map fun cell =>
    Cell.mk cell.name none none none (some src)

/-- Embeds `impl From<CellView> for Cell`, dispatching on the view kind; partial
in the embedding because the `RawLayoutPtr` arm can abort. -/
def Cell.fromView (src : CellView) : Option Cell :=
  match src with
  | CellView.Interface x => some (Cell.fromBundle x)
  | CellView.Abstract x => some (Cell.fromAbstract x)
  | CellView.Layout x => some (Cell.fromLayout x)
  | CellView.RawLayoutPtr x => Cell.fromRawLayoutPtr x

/-- Embeds `Instance::reflected`: the stored reflection flag for direction
`dir`. -/
def Instance.reflected (i : Instance) (dir : Dir) : Bool :=
  match dir with
  | Dir.Horiz => i.reflect_horiz
  | Dir.Vert => i.reflect_vert

/-- Embeds `Instance::boundbox_size`: read the referenced cell (propagating lock
failure through `?`) and return its `boundbox_size`. -/
def Instance.boundbox_size (i : Instance) : LayoutResult (Xy PrimPitches) := do
  let cell ← i.cell.read
  cell.boundbox_size

/-- Debug rendering of a placement value, standing in for Rust's
`{:?}` formatting of `loc` inside `Display for Instance`. -/
def Place.debugFmt : Place (Xy PrimPitches) → String
  | Place.Abs xy => "Abs(Xy \x7b x: " ++ toString xy.x ++ ", y: " ++ toString xy.y ++ " \x7d)"
  | Place.Rel _ => "Rel(..)"

/-- Embeds `impl std::fmt::Display for Instance`: reads the referenced cell's
name through `self.cell.read().unwrap()` — which aborts (embedded as
`none`) if the shared lock is poisoned — then renders
`Instance(name=.., cell=.., loc=..)`. -/
def Instance.displayFmt (i : Instance) : Option String :=
  (i.cell.readUnwrap).map fun cell =>
    "Instance(name=" ++ i.inst_name ++ ", cell=" ++ cell.name ++ ", loc=" ++
      i.loc.debugFmt ++ ")"

/-- Embeds `impl HasBoundBox for Instance`, method `boundbox`: resolve `loc` to
absolute, read the referenced cell, take its outline, then place the
extents on either side of the origin according to the two reflection
flags. -/
def Instance.boundbox (i : Instance) : LayoutResult (BoundBox PrimPitches) := do
  let loc ← i.loc.abs
  let cell ← i.cell.read
  let outline ← cell.outline
  let xs := match i.reflect_horiz with
    | false => (loc.x, loc.x + outline.xmax)
    | true => (loc.x - outline.xmax, loc.x)
  let ys := match i.reflect_vert with
    | false => (loc.y, loc.y + outline.ymax)
    | true => (loc.y - outline.ymax, loc.y)
  return BoundBox.new (Xy.new xs.1 ys.1) (Xy.new xs.2 ys.2)

/-- Spec-side selector: the payload of an `Interface` view, if any. -/
def viewInterface : CellView → Option Bundle
  | CellView.Interface x => some x
  | _ => none

/-- Spec-side selector: the payload of an `Abstract` view, if any. -/
def viewAbs : CellView → Option Abstract
  | CellView.Abstract x => some x
  | _ => none

/-- Spec-side selector: the payload of a `Layout` view, if any. -/
def viewLayout : CellView → Option Layout
  | CellView.Layout x => some x
  | _ => none

/-- Spec-side selector: the payload of a `RawLayoutPtr` view, if any. -/
def viewRaw : CellView → Option RawLayoutPtr
  | CellView.RawLayoutPtr x => some x
  | _ => none

/-- Spec-side, following the spec's words ("later entries of the same kind
override earlier ones"): the payload of the last view of a given kind in
an ordered list. -/
def specLastView {α : Type} (f : CellView → Option α) : List CellView → Option α
  | [] => none
  | v :: rest => (specLastView f rest).orElse fun _ => f v

/-- Helper: `add_view` never changes the cell's name. -/
theorem add_view_name (c : Cell) (v : CellView) : (c.add_view v).name = c.name := by
  obtain ⟨n, i, a, l, r⟩ := c
  cases v <;> rfl

/-- Helper: folding `add_view` never changes the cell's name. -/
theorem foldl_add_view_name (views : List CellView) (c : Cell) :
    (views.foldl Cell.add_view c).name = c.name := by
  induction views generalizing c with
  | nil => rfl
  | cons v rest ih => rw [List.foldl_cons, ih, add_view_name]

/-- Helper: the `abs` field after folding `add_view` is the last
`Abstract` in the list, defaulting to the initial cell's `abs`. -/
theorem foldl_add_view_abs (views : List CellView) (c : Cell) :
    (views.foldl Cell.add_view c).abs =
      (specLastView viewAbs views).orElse fun _ => c.abs := by
  induction views generalizing c with
  | nil => rfl
  | cons v rest ih =>
    rw [List.foldl_cons, ih, specLastView]
    cases specLastView viewAbs rest with
    | some x => rfl
    | none =>
      obtain ⟨n, i, a, l, r⟩ := c
      cases v <;> rfl

/-- Helper: the `interface` field after folding `add_view` is the last
`Interface` in the list, defaulting to the initial cell's `interface`. -/
theorem foldl_add_view_interface (views : List CellView) (c : Cell) :
    (views.foldl Cell.add_view c).interface =
      (specLastView viewInterface views).orElse fun _ => c.interface := by
  induction views generalizing c with
  | nil => rfl
  | cons v rest ih =>
    rw [List.foldl_cons, ih, specLastView]
    cases specLastView viewInterface rest with
    | some x => rfl
    | none =>
      obtain ⟨n, i, a, l, r⟩ := c
      cases v <;> rfl

/-- Helper: the `layout` field after folding `add_view` is the last
`Layout` in the list, defaulting to the initial cell's `layout`. -/
theorem foldl_add_view_layout (views : List CellView) (c : Cell) :
    (views.foldl Cell.add_view c).layout =
      (specLastView viewLayout views).orElse fun _ => c.layout := by
  induction views generalizing c with
  | nil => rfl
  | cons v rest ih =>
    rw [List.foldl_cons, ih, specLastView]
    cases specLastView viewLayout rest with
    | some x => rfl
    | none =>
      obtain ⟨n, i, a, l, r⟩ := c
      cases v <;> rfl

/-- Helper: the `raw` field after folding `add_view` is the last
`RawLayoutPtr` in the list, defaulting to the initial cell's `raw`. -/
theorem foldl_add_view_raw (views : List CellView) (c : Cell) :
    (views.foldl Cell.add_view c).raw =
      (specLastView viewRaw views).orElse fun _ => c.raw := by
  induction views generalizing c with
  | nil => rfl
  | cons v rest ih =>
    rw [List.foldl_cons, ih, specLastView]
    cases specLastView viewRaw rest with
    | some x => rfl
    | none =>
      obtain ⟨n, i, a, l, r⟩ := c
      cases v <;> rfl

/-- Helper: `Option.orElse` with an empty fallback is the identity. -/
theorem orElse_none {α : Type} (o : Option α) :
    (o.orElse fun _ => none) = o := by
  cases o <;> rfl

/-- Helper: binding a successful `LayoutResult` applies the continuation. -/
theorem except_bind_ok {α β : Type} (a : α) (f : α → LayoutResult β) :
    (Except.ok a >>= f) = f a := rfl

/-- Helper: binding a failed `LayoutResult` propagates the error. -/
theorem except_bind_error {α β : Type} (e : LayoutError) (f : α → LayoutResult β) :
    ((Except.error e : LayoutResult α) >>= f) = Except.error e := rfl

/-- C2: for every Cell, `outline()` and `metals()` return the outline
(resp. metal count) of the highest-priority present view in the fixed
order abstract > layout > raw, regardless of the contents of any
lower-priority view, with no consistency check between views. -/
theorem cell_view_priority (c : Cell) :
    (∀ x, c.abs = some x → c.outline = Except.ok x.outline ∧ c.metals = Except.ok x.metals) ∧
    (∀ x, c.abs = none → c.layout = some x →
       c.outline = Except.ok x.outline ∧ c.metals = Except.ok x.metals) ∧
    (∀ x, c.abs = none → c.layout = none → c.raw = some x →
       c.outline = Except.ok x.outline ∧ c.metals = Except.ok x.metals) := by
  obtain ⟨n, i, a, l, r⟩ := c
  refine ⟨?_, ?_, ?_⟩
  · intro x hx
    simp only [Cell.abs] at hx
    subst hx
    exact ⟨rfl, rfl⟩
  · intro x ha hx
    simp only [Cell.abs] at ha
    simp only [Cell.layout] at hx
    subst ha; subst hx
    exact ⟨rfl, rfl⟩
  · intro x ha hl hx
    simp only [Cell.abs] at ha
    simp only [Cell.layout] at hl
    simp only [Cell.raw] at hx
    subst ha; subst hl; subst hx
    exact ⟨rfl, rfl⟩

/-- The spec's worked example: cell "inv" with an Abstract view of
outline (4,6), metals 3. -/
def invAbstract : Abstract :=
  { name := "inv", outline := { xmax := 4, ymax := 6 }, metals := 3 }

/-- The spec's worked example: cell "inv" also has a Layout view of
outline (5,7), metals 2. -/
def invLayoutView : Layout := Layout.new "inv" 2 { xmax := 5, ymax := 7 }

/-- The spec's worked example cell, holding both disagreeing views. -/
def invCell : Cell := Cell.mk "inv" none (some invAbstract) (some invLayoutView) none

/-- Witness for C2, on the spec's own example: the abstract view wins
over the disagreeing layout view. -/
theorem cell_view_priority_witness :
    invCell.outline = Except.ok { xmax := 4, ymax := 6 } ∧
    invCell.metals = Except.ok 3 :=
  (cell_view_priority invCell).1 invAbstract rfl

/-- C6: a Cell constructed with no views fails `outline`, `metals`,
`boundbox_size`, and `top_metal` with the Validation error. -/
theorem cell_new_queries_fail (name : String) :
    (Cell.new name).outline = Except.error LayoutError.Validation ∧
    (Cell.new name).metals = Except.error LayoutError.Validation ∧
    (Cell.new name).boundbox_size = Except.error LayoutError.Validation ∧
    (Cell.new name).top_metal = Except.error LayoutError.Validation :=
  ⟨rfl, rfl, rfl, rfl⟩

/-- C7: `top_metal()` returns `None` when `metals()` is 0, `Some (k-1)`
when `metals()` is `k > 0`, and fails exactly when `metals()` fails,
propagating that failure. -/
theorem cell_top_metal_spec (c : Cell) :
    (c.metals = Except.ok 0 → c.top_metal = Except.ok none) ∧
    (∀ k, c.metals = Except.ok k → 0 < k → c.top_metal = Except.ok (some (k - 1))) ∧
    (∀ e, c.metals = Except.error e → c.top_metal = Except.error e) ∧
    ((∃ e, c.metals = Except.error e) ↔ ∃ e, c.top_metal = Except.error e) := by
  refine ⟨?_, ?_, ?_, ?_⟩
  · intro h
    unfold Cell.top_metal
    rw [h, except_bind_ok]
    rfl
  · intro k h hk
    have hne : (k == 0) = false := by
      simp [Nat.pos_iff_ne_zero.mp hk]
    unfold Cell.top_metal
    rw [h, except_bind_ok, hne]
    rfl
  · intro e h
    unfold Cell.top_metal
    rw [h, except_bind_error]
  · constructor
    · rintro ⟨e, h⟩
      refine ⟨e, ?_⟩
      unfold Cell.top_metal
      rw [h, except_bind_error]
    · rintro ⟨e, h⟩
      cases hm : c.metals with
      | error e2 => exact ⟨e2, rfl⟩
      | ok k =>
        unfold Cell.top_metal at h
        rw [hm, except_bind_ok] at h
        cases hk : (k == 0) with
        | true => rw [hk] at h; cases h
        | false => rw [hk] at h; cases h

/-- Witness for C7 at concrete cells: metals 0, metals 3, and a viewless
cell. -/
theorem cell_top_metal_spec_witness :
    (Cell.fromAbstract { name := "a", outline := { xmax := 1, ymax := 1 }, metals := 0 }).top_metal
      = Except.ok none ∧
    (Cell.fromAbstract { name := "a", outline := { xmax := 1, ymax := 1 }, metals := 3 }).top_metal
      = Except.ok (some 2) ∧
    (Cell.new "e").top_metal = Except.error LayoutError.Validation :=
  ⟨(cell_top_metal_spec _).1 rfl,
   (cell_top_metal_spec _).2.1 3 rfl (by decide),
   (cell_top_metal_spec _).2.2.1 LayoutError.Validation rfl⟩

/-- C8: `boundbox_size()` returns `(outline.xmax, outline.ymax)` from the
outline resolved by `outline()`, and fails exactly when `outline()`
fails, propagating that failure. -/
theorem cell_boundbox_size_spec (c : Cell) :
    (∀ o, c.outline = Except.ok o → c.boundbox_size = Except.ok (Xy.new o.xmax o.ymax)) ∧
    (∀ e, c.outline = Except.error e → c.boundbox_size = Except.error e) ∧
    ((∃ e, c.outline = Except.error e) ↔ ∃ e, c.boundbox_size = Except.error e) := by
  refine ⟨?_, ?_, ?_⟩
  · intro o h
    unfold Cell.boundbox_size
    rw [h, except_bind_ok]
    rfl
  · intro e h
    unfold Cell.boundbox_size
    rw [h, except_bind_error]
  · constructor
    · rintro ⟨e, h⟩
      refine ⟨e, ?_⟩
      unfold Cell.boundbox_size
      rw [h, except_bind_error]
    · rintro ⟨e, h⟩
      cases ho : c.outline with
      | error e2 => exact ⟨e2, rfl⟩
      | ok o =>
        unfold Cell.boundbox_size at h
        rw [ho, except_bind_ok] at h
        cases h

/-- Witness for C8 at concrete cells: a present outline and a viewless
cell. -/
theorem cell_boundbox_size_spec_witness :
    (Cell.fromAbstract { name := "a", outline := { xmax := 4, ymax := 6 }, metals := 3 }).boundbox_size
      = Except.ok (Xy.new 4 6) ∧
    (Cell.new "e").boundbox_size = Except.error LayoutError.Validation :=
  ⟨(cell_boundbox_size_spec _).1 { xmax := 4, ymax := 6 } rfl,
   (cell_boundbox_size_spec _).2.1 LayoutError.Validation rfl⟩

/-- C9: `assign` appends exactly one Assign record to `assignments` and
leaves every other Layout field unchanged; `cut` appends exactly one
TrackIntersection to `cuts` and leaves every other field, including
`assignments`, unchanged. Both are total functions of the embedding:
neither can fail. -/
theorem layout_assign_cut_frame :
    (∀ (l : Layout) (net : String) (layer track a : Nat) (rz : RelZ),
       (l.assign net layer track a rz).assignments =
         l.assignments ++
           [{ net := net, at_ := { layer := layer, track := track, at_ := a, relz := rz } }] ∧
       (l.assign net layer track a rz).name = l.name ∧
       (l.assign net layer track a rz).metals = l.metals ∧
       (l.assign net layer track a rz).outline = l.outline ∧
       (l.assign net layer track a rz).instances = l.instances ∧
       (l.assign net layer track a rz).cuts = l.cuts ∧
       (l.assign net layer track a rz).places = l.places) ∧
    (∀ (l : Layout) (layer track a : Nat) (rz : RelZ),
       (l.cut layer track a rz).cuts =
         l.cuts ++ [{ layer := layer, track := track, at_ := a, relz := rz }] ∧
       (l.cut layer track a rz).name = l.name ∧
       (l.cut layer track a rz).metals = l.metals ∧
       (l.cut layer track a rz).outline = l.outline ∧
       (l.cut layer track a rz).instances = l.instances ∧
       (l.cut layer track a rz).assignments = l.assignments ∧
       (l.cut layer track a rz).places = l.places) := by
  constructor
  · intro l net layer track a rz
    obtain ⟨n, m, o, insts, assigns, cuts, places⟩ := l
    exact ⟨rfl, rfl, rfl, rfl, rfl, rfl, rfl⟩
  · intro l layer track a rz
    obtain ⟨n, m, o, insts, assigns, cuts, places⟩ := l
    exact ⟨rfl, rfl, rfl, rfl, rfl, rfl, rfl⟩

/-- C5: `net(name)` binds the handle to `name` and each `.at` call
immediately appends exactly one Assign pairing the bound net name with
the TrackIntersection built from the supplied arguments, in call order;
the spec's chained example appends exactly its two records. -/
theorem net_handle_at_spec :
    (∀ (l : Layout) (n : String), (l.net n).name = n ∧ (l.net n).parent = l) ∧
    (∀ (h : NetHandle) (layer track a : Nat) (rz : RelZ),
       (h.at_ layer track a rz).name = h.name ∧
       (h.at_ layer track a rz).parent.assignments =
         h.parent.assignments ++
           [{ net := h.name, at_ := { layer := layer, track := track, at_ := a, relz := rz } }] ∧
       (h.at_ layer track a rz).parent = h.parent.assign h.name layer track a rz) ∧
    (∀ (l : Layout),
       (((l.net "VDD").at_ 1 3 0 RelZ.Before).at_ 1 4 0 RelZ.After).parent.assignments =
         l.assignments ++
           [{ net := "VDD", at_ := { layer := 1, track := 3, at_ := 0, relz := RelZ.Before } },
            { net := "VDD", at_ := { layer := 1, track := 4, at_ := 0, relz := RelZ.After } }]) := by
  refine ⟨?_, ?_, ?_⟩
  · intro l n
    exact ⟨rfl, rfl⟩
  · intro h layer track a rz
    obtain ⟨n, parent⟩ := h
    obtain ⟨nm, m, o, insts, assigns, cuts, places⟩ := parent
    exact ⟨rfl, rfl, rfl⟩
  · intro l
    obtain ⟨nm, m, o, insts, assigns, cuts, places⟩ := l
    show (assigns ++ [_]) ++ [_] = assigns ++ [_, _]
    rw [List.append_assoc]
    rfl

/-- C10: a Cell whose abstract, layout and raw views are all absent fails
`outline`, `metals`, `boundbox_size` and `top_metal` with Validation,
whatever its interface view holds: the interface view is never consulted
by any geometric or attribute query. -/
theorem cell_interface_only_queries_fail (c : Cell)
    (ha : c.abs = none) (hl : c.layout = none) (hr : c.raw = none) :
    c.outline = Except.error LayoutError.Validation ∧
    c.metals = Except.error LayoutError.Validation ∧
    c.boundbox_size = Except.error LayoutError.Validation ∧
    c.top_metal = Except.error LayoutError.Validation := by
  obtain ⟨n, i, a, l, r⟩ := c
  simp only [Cell.abs] at ha
  simp only [Cell.layout] at hl
  simp only [Cell.raw] at hr
  subst ha; subst hl; subst hr
  exact ⟨rfl, rfl, rfl, rfl⟩

/-- Witness for C10: a Cell built from an interface Bundle has a view
present, yet all four queries fail with Validation. -/
theorem cell_interface_only_queries_fail_witness :
    (Cell.fromBundle { name := "io" }).interface = some { name := "io" } ∧
    ((Cell.fromBundle { name := "io" }).outline = Except.error LayoutError.Validation ∧
     (Cell.fromBundle { name := "io" }).metals = Except.error LayoutError.Validation ∧
     (Cell.fromBundle { name := "io" }).boundbox_size = Except.error LayoutError.Validation ∧
     (Cell.fromBundle { name := "io" }).top_metal = Except.error LayoutError.Validation) :=
  ⟨rfl, cell_interface_only_queries_fail (Cell.fromBundle { name := "io" }) rfl rfl rfl⟩

/-- Helper: evaluating `Ptr::read` on an unpoisoned pointer. -/
theorem ptr_read_ok {T : Type} (v : T) : (Ptr.mk v false).read = Except.ok v := rfl

/-- Helper: evaluating `Ptr::read` on a poisoned pointer. -/
theorem ptr_read_poisoned {T : Type} (v : T) :
    (Ptr.mk v true).read = Except.error LayoutError.LockPoisoned := rfl

/-- C4: `add_view` stores the view into the field matching its kind,
replacing any prior value of that kind and leaving the other fields
untouched; `from_views` leaves, for each kind, exactly the last view of
that kind in the ordered list; adding two Abstract views leaves exactly
one, equal to the second. -/
theorem cell_add_view_last_wins :
    (∀ (c : Cell) (x : Bundle),
       (c.add_view (CellView.Interface x)).interface = some x ∧
       (c.add_view (CellView.Interface x)).name = c.name ∧
       (c.add_view (CellView.Interface x)).abs = c.abs ∧
       (c.add_view (CellView.Interface x)).layout = c.layout ∧
       (c.add_view (CellView.Interface x)).raw = c.raw) ∧
    (∀ (c : Cell) (x : Abstract),
       (c.add_view (CellView.Abstract x)).abs = some x ∧
       (c.add_view (CellView.Abstract x)).name = c.name ∧
       (c.add_view (CellView.Abstract x)).interface = c.interface ∧
       (c.add_view (CellView.Abstract x)).layout = c.layout ∧
       (c.add_view (CellView.Abstract x)).raw = c.raw) ∧
    (∀ (c : Cell) (x : Layout),
       (c.add_view (CellView.Layout x)).layout = some x ∧
       (c.add_view (CellView.Layout x)).name = c.name ∧
       (c.add_view (CellView.Layout x)).interface = c.interface ∧
       (c.add_view (CellView.Layout x)).abs = c.abs ∧
       (c.add_view (CellView.Layout x)).raw = c.raw) ∧
    (∀ (c : Cell) (x : RawLayoutPtr),
       (c.add_view (CellView.RawLayoutPtr x)).raw = some x ∧
       (c.add_view (CellView.RawLayoutPtr x)).name = c.name ∧
       (c.add_view (CellView.RawLayoutPtr x)).interface = c.interface ∧
       (c.add_view (CellView.RawLayoutPtr x)).abs = c.abs ∧
       (c.add_view (CellView.RawLayoutPtr x)).layout = c.layout) ∧
    (∀ (name : String) (views : List CellView),
       (Cell.from_views name views).name = name ∧
       (Cell.from_views name views).interface = specLastView viewInterface views ∧
       (Cell.from_views name views).abs = specLastView viewAbs views ∧
       (Cell.from_views name views).layout = specLastView viewLayout views ∧
       (Cell.from_views name views).raw = specLastView viewRaw views) ∧
    (∀ (c : Cell) (x1 x2 : Abstract),
       ((c.add_view (CellView.Abstract x1)).add_view (CellView.Abstract x2)).abs = some x2 ∧
       ((c.add_view (CellView.Abstract x1)).add_view (CellView.Abstract x2)).interface
         = c.interface ∧
       ((c.add_view (CellView.Abstract x1)).add_view (CellView.Abstract x2)).layout = c.layout ∧
       ((c.add_view (CellView.Abstract x1)).add_view (CellView.Abstract x2)).raw = c.raw) := by
  refine ⟨?_, ?_, ?_, ?_, ?_, ?_⟩
  · intro c x
    obtain ⟨n, i, a, l, r⟩ := c
    exact ⟨rfl, rfl, rfl, rfl, rfl⟩
  · intro c x
    obtain ⟨n, i, a, l, r⟩ := c
    exact ⟨rfl, rfl, rfl, rfl, rfl⟩
  · intro c x
    obtain ⟨n, i, a, l, r⟩ := c
    exact ⟨rfl, rfl, rfl, rfl, rfl⟩
  · intro c x
    obtain ⟨n, i, a, l, r⟩ := c
    exact ⟨rfl, rfl, rfl, rfl, rfl⟩
  · intro name views
    refine ⟨foldl_add_view_name views _, ?_, ?_, ?_, ?_⟩
    · exact (foldl_add_view_interface views _).trans (orElse_none _)
    · exact (foldl_add_view_abs views _).trans (orElse_none _)
    · exact (foldl_add_view_layout views _).trans (orElse_none _)
    · exact (foldl_add_view_raw views _).trans (orElse_none _)
  · intro c x1 x2
    obtain ⟨n, i, a, l, r⟩ := c
    exact ⟨rfl, rfl, rfl, rfl⟩

/-- C1: given an absolute origin `(x,y)`, a readable referenced cell, and
a referenced-cell outline of extents `(w,h)`, `boundbox` returns the
origin-pivot rectangle dictated by the two reflection flags; when
placement resolution, cell access, or the outline query fails, `boundbox`
fails with that same error. -/
theorem instance_boundbox_spec :
    (∀ (i : Instance) (x y w h : PrimPitches),
       i.loc = Place.Abs (Xy.new x y) →
       i.cell.poisoned = false →
       (i.cell.value).outline = Except.ok { xmax := w, ymax := h } →
       ((i.reflect_horiz = false → i.reflect_vert = false →
          i.boundbox = Except.ok (BoundBox.new (Xy.new x y) (Xy.new (x + w) (y + h)))) ∧
        (i.reflect_horiz = true → i.reflect_vert = false →
          i.boundbox = Except.ok (BoundBox.new (Xy.new (x - w) y) (Xy.new x (y + h)))) ∧
        (i.reflect_horiz = false → i.reflect_vert = true →
          i.boundbox = Except.ok (BoundBox.new (Xy.new x (y - h)) (Xy.new (x + w) y))) ∧
        (i.reflect_horiz = true → i.reflect_vert = true →
          i.boundbox = Except.ok (BoundBox.new (Xy.new (x - w) (y - h)) (Xy.new x y))))) ∧
    (∀ (i : Instance) (e : LayoutError),
       i.loc.abs = Except.error e → i.boundbox = Except.error e) ∧
    (∀ (i : Instance) (v : Xy PrimPitches) (e : LayoutError),
       i.loc.abs = Except.ok v → i.cell.read = Except.error e →
       i.boundbox = Except.error e) ∧
    (∀ (i : Instance) (v : Xy PrimPitches) (c : Cell) (e : LayoutError),
       i.loc.abs = Except.ok v → i.cell.read = Except.ok c →
       c.outline = Except.error e → i.boundbox = Except.error e) := by
  refine ⟨?_, ?_, ?_, ?_⟩
  · intro i x y w h hloc hpois hout
    obtain ⟨nm, cell, loc, rh, rv⟩ := i
    simp only [Instance.loc] at hloc
    subst hloc
    obtain ⟨cv, cp⟩ := cell
    have hcp : cp = false := hpois
    subst hcp
    have hov : cv.outline = Except.ok { xmax := w, ymax := h } := hout
    refine ⟨?_, ?_, ?_, ?_⟩ <;> intro hrh hrv <;>
      simp only [Instance.reflect_horiz] at hrh <;>
      simp only [Instance.reflect_vert] at hrv <;>
      subst hrh <;> subst hrv <;>
      · unfold Instance.boundbox
        simp only [Instance.loc, Instance.cell, Instance.reflect_horiz, Instance.reflect_vert,
          Place.abs, ptr_read_ok, except_bind_ok]
        rw [hov, except_bind_ok]
        rfl
  · intro i e h
    obtain ⟨nm, cell, loc, rh, rv⟩ := i
    simp only [Instance.loc] at h
    unfold Instance.boundbox
    simp only [Instance.loc]
    rw [h, except_bind_error]
  · intro i v e h1 h2
    obtain ⟨nm, cell, loc, rh, rv⟩ := i
    simp only [Instance.loc] at h1
    simp only [Instance.cell] at h2
    unfold Instance.boundbox
    simp only [Instance.loc, Instance.cell]
    rw [h1, except_bind_ok, h2, except_bind_error]
  · intro i v c e h1 h2 h3
    obtain ⟨nm, cell, loc, rh, rv⟩ := i
    simp only [Instance.loc] at h1
    simp only [Instance.cell] at h2
    unfold Instance.boundbox
    simp only [Instance.loc, Instance.cell]
    rw [h1, except_bind_ok, h2, except_bind_ok, h3, except_bind_error]

/-- Concrete referenced cell for witnesses: an Abstract view of outline
(4,6), metals 3. -/
def cellA : Cell :=
  Cell.fromAbstract { name := "a", outline := { xmax := 4, ymax := 6 }, metals := 3 }

/-- Concrete instance at (2,3), no reflection. -/
def instNoRefl : Instance :=
  Instance.mk "i0" (Ptr.mk cellA false) (Place.Abs (Xy.new 2 3)) false false

/-- Concrete instance at (2,3), horizontal reflection only. -/
def instHoriz : Instance :=
  Instance.mk "i1" (Ptr.mk cellA false) (Place.Abs (Xy.new 2 3)) true false

/-- Concrete instance at (2,3), vertical reflection only. -/
def instVert : Instance :=
  Instance.mk "i2" (Ptr.mk cellA false) (Place.Abs (Xy.new 2 3)) false true

/-- Concrete instance at (2,3), both reflections. -/
def instBoth : Instance :=
  Instance.mk "i3" (Ptr.mk cellA false) (Place.Abs (Xy.new 2 3)) true true

/-- Concrete instance with an unresolved relative placement. -/
def instRelPlace : Instance :=
  Instance.mk "ir" (Ptr.mk cellA false) (Place.Rel RelativePlace.mk) false false

/-- Concrete instance whose referenced-cell lock is poisoned. -/
def instPoisoned : Instance :=
  Instance.mk "ip" (Ptr.mk cellA true) (Place.Abs (Xy.new 0 0)) false false

/-- Concrete instance referencing a cell with no views. -/
def instNoView : Instance :=
  Instance.mk "iv" (Ptr.mk (Cell.new "empty") false) (Place.Abs (Xy.new 0 0)) false false

/-- Witness for C1 at concrete instances: all four reflection cases and
all three failure causes. -/
theorem instance_boundbox_spec_witness :
    instNoRefl.boundbox = Except.ok (BoundBox.new (Xy.new 2 3) (Xy.new 6 9)) ∧
    instHoriz.boundbox = Except.ok (BoundBox.new (Xy.new (-2) 3) (Xy.new 2 9)) ∧
    instVert.boundbox = Except.ok (BoundBox.new (Xy.new 2 (-3)) (Xy.new 6 3)) ∧
    instBoth.boundbox = Except.ok (BoundBox.new (Xy.new (-2) (-3)) (Xy.new 2 3)) ∧
    instRelPlace.boundbox = Except.error LayoutError.Unresolved ∧
    instPoisoned.boundbox = Except.error LayoutError.LockPoisoned ∧
    instNoView.boundbox = Except.error LayoutError.Validation := by
  refine ⟨?_, ?_, ?_, ?_, ?_, ?_, ?_⟩
  · have h := (instance_boundbox_spec.1 instNoRefl 2 3 4 6 rfl rfl rfl).1 rfl rfl
    rw [h]
    rfl
  · have h := (instance_boundbox_spec.1 instHoriz 2 3 4 6 rfl rfl rfl).2.1 rfl rfl
    rw [h]
    rfl
  · have h := (instance_boundbox_spec.1 instVert 2 3 4 6 rfl rfl rfl).2.2.1 rfl rfl
    rw [h]
    rfl
  · have h := (instance_boundbox_spec.1 instBoth 2 3 4 6 rfl rfl rfl).2.2.2 rfl rfl
    rw [h]
    rfl
  · exact instance_boundbox_spec.2.1 instRelPlace LayoutError.Unresolved rfl
  · exact instance_boundbox_spec.2.2.1 instPoisoned (Xy.new 0 0) LayoutError.LockPoisoned rfl rfl
  · exact instance_boundbox_spec.2.2.2 instNoView (Xy.new 0 0) (Cell.new "empty")
      LayoutError.Validation rfl rfl rfl

/-- Concrete `RawLayoutPtr` whose raw-cell lock is poisoned. -/
def poisonedRawPtr : RawLayoutPtr :=
  { outline := { xmax := 1, ymax := 1 }, metals := 1,
    lib := Ptr.mk { name := "lib" } false, cell := Ptr.mk { name := "rc" } true }

/-- Concrete instance (poisoned referenced cell) for the Display site. -/
def instPoisonedFmt : Instance :=
  Instance.mk "ifmt" (Ptr.mk cellA true) (Place.Abs (Xy.new 0 0)) false false

/-- C3 evaluation: at the two unwrap call sites — Instance's Display
rendering and the RawLayoutPtr-to-Cell conversion — a poisoned shared
lock aborts the process (embedded as `none`) instead of surfacing a
typed failure, while the neighbouring `?`-based sites (`boundbox_size`,
`boundbox`) do surface the typed `LockPoisoned` error. -/
theorem lock_failure_aborts_at_unwrap_sites :
    instPoisonedFmt.displayFmt = none ∧
    Cell.fromRawLayoutPtr poisonedRawPtr = none ∧
    instPoisonedFmt.boundbox_size = Except.error LayoutError.LockPoisoned ∧
    instPoisonedFmt.boundbox = Except.error LayoutError.LockPoisoned :=
  ⟨rfl, rfl, rfl, rfl⟩
